import Mathlib

/-!
Verification of the EmPOWER runtime registry (empower/core/core.py).

The embedding models the runtime as a pure state machine.  Python dicts
become association lists (`List (key × value)`), the SQL store becomes a
record of row lists with the uniqueness constraints of the schema, and a
Python method that mutates `self` and may raise becomes a function
`RuntimeState → RuntimeState × Option PyErr`: the returned state is the
state at the moment the method returned or raised, so partial mutations
made before an exception are preserved, exactly as in Python.
-/

set_option autoImplicit false

namespace Empower

/-- Python exceptions raised by the runtime.  `valueError` carries the
message of the corresponding `raise ValueError(...)` in core.py
(format arguments elided), `keyError` models `KeyError` from a failed
dict access or lookup, `integrityError` models an uncaught
`sqlalchemy.exc.IntegrityError`, and `unmappedInstanceError` models the
error `session.delete(None)` raises when a store query returned no row. -/
inductive PyErr where
  | valueError (msg : String)
  | keyError
  | integrityError
  | unmappedInstanceError
deriving Repr, DecidableEq

/-- Lookup in a Python dict modelled as an association list. -/
def lookupKey {α β : Type} [BEq α] (k : α) : List (α × β) → Option β
  | [] => none
  | (a, b) :: l => if a == k then some b else lookupKey k l

/-- Assignment `d[k] = v` on a Python dict: replace in place if the key
exists, else append (Python dicts preserve insertion order). -/
def insertKey {α β : Type} [BEq α] (k : α) (v : β) : List (α × β) → List (α × β)
  | [] => [(k, v)]
  | (a, b) :: l => if a == k then (k, v) :: l else (a, b) :: insertKey k v l

/-- Deletion `del d[k]` on a Python dict (the caller checks presence). -/
def eraseKey {α β : Type} [BEq α] (k : α) : List (α × β) → List (α × β)
  | [] => []
  | (a, b) :: l => if a == k then eraseKey k l else (a, b) :: eraseKey k l

/-- Row of the accounts table, fields as in the `TblAccount` constructor
calls of core.py. -/
structure TblAccount where
  username : String
  password : String
  role : String
  name : String
  surname : String
  email : String
deriving Repr, DecidableEq

/-- Row of the tenants table, fields as in the `TblTenant` constructor
calls of core.py. -/
structure TblTenant where
  tenant_id : Nat
  tenant_name : String
  owner : String
  desc : String
deriving Repr, DecidableEq

/-- Row of the pending-tenant-requests table, fields as in the
`TblPendingTenant` constructor calls of core.py. -/
structure TblPendingTenant where
  tenant_id : Nat
  tenant_name : String
  owner : String
  desc : String
deriving Repr, DecidableEq

/-- The persistent store (the Persistence Gateway).  `nextId` models the
id the store assigns when a tenant row is inserted without an explicit
`tenant_id`.  Uniqueness constraints: `username` is the key of the
accounts table; `tenant_id` is the key and `tenant_name` is unique in
the tenants table; likewise in the pending table. -/
structure Store where
  accounts : List TblAccount
  tenants : List TblTenant
  pending : List TblPendingTenant
  nextId : Nat
deriving Repr, DecidableEq

/-- In-memory account object, field order as in the `Account(...)`
constructor calls of core.py. -/
structure Account where
  username : String
  password : String
  name : String
  surname : String
  email : String
  role : String
deriving Repr, DecidableEq

/-- In-memory tenant object, field order as in the `Tenant(...)`
constructor calls of core.py. -/
structure Tenant where
  tenant_id : Nat
  tenant_name : String
  owner : String
  desc : String
deriving Repr, DecidableEq

/-- A module owned by a worker component, carrying at least its own id
and the id of the tenant it serves. -/
structure Module where
  module_id : Nat
  tenant_id : Nat
deriving Repr, DecidableEq

/-- Modelled from the spec: the classification of a registered component
(the classes `ModuleWorker` and `EmpowerApp` checked by `unregister` are
not part of the given sources).  Per the spec, a component is a Worker,
an App, or some other shape that cannot be unregistered. -/
inductive ComponentKind where
  | worker
  | app
  | plain
deriving Repr, DecidableEq

/-- Modelled from the spec: a registered component instance.  `modules`
is `some _` exactly when the instance has a `modules` attribute (the
capability `hasattr(component, modules)` probes); `hasStart` records
whether the instance has a `start` attribute and `startExc` the
exception that hook raises, if any; `handlersRemoved` records whether
the handler-teardown hook has run; `path` is the canonical name the
registry stamps on the instance. -/
structure Component where
  kind : ComponentKind
  modules : Option (List (Nat × Module))
  hasStart : Bool
  startExc : Option PyErr
  started : Bool
  handlersRemoved : Bool
  path : String
deriving Repr, DecidableEq

/-- Modelled from the spec: `removeModule(moduleId)` of the component
plugin contract deletes the module from the components keyed module
collection. -/
def Component.remove_module (c : Component) (mid : Nat) : Component :=
  match c.modules with
  | none => c
  | some mods => { c with modules := some (eraseKey mid mods) }

/-- Modelled from the spec: `removeHandlers()` of the component plugin
contract tears down the components handlers. -/
def Component.remove_handlers (c : Component) : Component :=
  { c with handlersRemoved := true }

/-- The whole runtime: the store plus the in-memory maps of
`EmpowerRuntime.__init__` that the claims concern. -/
structure RuntimeState where
  store : Store
  accounts : List (String × Account)
  tenants : List (Nat × Tenant)
  components : List (String × Component)
deriving Repr, DecidableEq

/-- `generate_default_accounts` of core.py: if the accounts table is
empty, insert the root/foo/bar rows in one commit; otherwise do
nothing. -/
def defaultRootRow : TblAccount :=
  ⟨"root", "root", "admin", "Administrator", "", "admin@empower.net"⟩

def defaultFooRow : TblAccount :=
  ⟨"foo", "foo", "user", "Foo", "", "foo@empower.net"⟩

def defaultBarRow : TblAccount :=
  ⟨"bar", "bar", "user", "Bar", "", "bar@empower.net"⟩

def generate_default_accounts (st : Store) : Store :=
  if st.accounts.isEmpty then
    { st with accounts := st.accounts ++ [defaultRootRow, defaultFooRow, defaultBarRow] }
  else
    st

/-- `EmpowerRuntime.create_account`: duplicate check against the
in-memory map, then insert and commit, then mirror into memory.  An
`IntegrityError` from the commit is not caught here, so a store-level
duplicate propagates with the transaction (hence the store) unchanged. -/
def create_account (s : RuntimeState)
    (username password role name surname email : String) :
    RuntimeState × Option PyErr :=
  if (lookupKey username s.accounts).isSome then
    (s, some (.valueError (username ++ " already registered")))
  else
    let row : TblAccount := ⟨username, password, role, name, surname, email⟩
    if s.store.accounts.any (fun a => a.username == username) then
      (s, some .integrityError)
    else
      let s1 := { s with store := { s.store with accounts := s.store.accounts ++ [row] } }
      ({ s1 with accounts :=
          insertKey username ⟨username, password, name, surname, email, role⟩ s1.accounts },
       none)

/-- Body of the module-sweep loop of `EmpowerRuntime.remove_tenant` for
one registered component: skip it unless it has a `modules` attribute,
else snapshot the ids of the modules serving the removed tenant and
remove each through the components own `remove_module`. -/
def sweepComponent (tenant_id : Nat) (c : Component) : Component :=
  match c.modules with
  | none => c
  | some mods =>
    let to_be_removed :=
      (mods.filter (fun m => m.2.tenant_id == tenant_id)).map (fun m => m.2.module_id)
    to_be_removed.foldl Component.remove_module c

/-- `EmpowerRuntime.remove_tenant`: KeyError if the tenant is not live;
then the in-memory entry is deleted FIRST, then the persisted row is
looked up, deleted and committed (`session.delete(None)` raising when
the row is absent), and finally every registered component exposing a
`modules` attribute has the modules of this tenant removed via its own
`remove_module`, module ids snapshotted before deletion. -/
def remove_tenant (s : RuntimeState) (tenant_id : Nat) :
    RuntimeState × Option PyErr :=
  if (lookupKey tenant_id s.tenants).isNone then
    (s, some .keyError)
  else
    let s1 := { s with tenants := eraseKey tenant_id s.tenants }
    match s1.store.tenants.find? (fun t => t.tenant_id == tenant_id) with
    | none => (s1, some .unmappedInstanceError)
    | some _ =>
      let s2 := { s1 with store :=
        { s1.store with tenants := s1.store.tenants.filter (fun t => t.tenant_id != tenant_id) } }
      let swept := s2.components.map (fun p => (p.1, sweepComponent tenant_id p.2))
      let s3 := { s2 with components := swept }
      (s3, none)

/-- Sequencing of a loop body over a list with Python exception
semantics: stop at the first raised error, keeping the state reached. -/
def runList (f : RuntimeState → Nat → RuntimeState × Option PyErr) :
    RuntimeState → List Nat → RuntimeState × Option PyErr
  | s, [] => (s, none)
  | s, tid :: rest =>
    match f s tid with
    | (s1, none) => runList f s1 rest
    | (s1, some e) => (s1, some e)

/-- `EmpowerRuntime.remove_account`: root is protected; the persisted
row is looked up (KeyError on miss), deleted and committed; then the
in-memory entry is deleted (a raw `del`, raising KeyError if absent);
then the ids of all tenants owned by the account are snapshotted and
each is removed through `remove_tenant`. -/
def remove_account (s : RuntimeState) (username : String) :
    RuntimeState × Option PyErr :=
  if username == "root" then
    (s, some (.valueError "Cannot removed root account"))
  else
    match s.store.accounts.find? (fun a => a.username == username) with
    | none => (s, some .keyError)
    | some _ =>
      let s1 := { s with store :=
        { s.store with accounts := s.store.accounts.filter (fun a => a.username != username) } }
      if (lookupKey username s1.accounts).isNone then
        (s1, some .keyError)
      else
        let s2 := { s1 with accounts := eraseKey username s1.accounts }
        let to_be_deleted :=
          (s2.tenants.filter (fun p => p.2.owner == username)).map (fun p => p.2.tenant_id)
        runList remove_tenant s2 to_be_deleted

/-- `EmpowerRuntime.register`: duplicate check on the registry key, then
the constructed instance is stored in the registry, its `path` stamped,
and, if it has a `start` attribute, its start hook is invoked; an
exception from the constructor (`init_result = .error`) or from the
start hook propagates, and a start failure leaves the entry in the
registry. -/
def register (s : RuntimeState) (name : String)
    (init_result : Except PyErr Component) : RuntimeState × Option PyErr :=
  if (lookupKey name s.components).isSome then
    (s, some (.valueError (name ++ " already registered")))
  else
    match init_result with
    | .error e => (s, some e)
    | .ok comp =>
      let comp1 := { comp with path := name }
      let s1 := { s with components := insertKey name comp1 s.components }
      if comp1.hasStart then
        match comp1.startExc with
        | some e => (s1, some e)
        | none =>
          ({ s1 with components := insertKey name { comp1 with started := true } s1.components },
           none)
      else
        (s1, none)

/-- `EmpowerRuntime.unregister`: registry lookup (KeyError on miss);
reject unless the component is classified Worker or App; for a Worker,
snapshot all module ids and remove each through the components own
`remove_module`; then call `remove_handlers` and delete the registry
entry. -/
def unregister (s : RuntimeState) (name : String) :
    RuntimeState × Option PyErr :=
  match lookupKey name s.components with
  | none => (s, some .keyError)
  | some worker =>
    if worker.kind != ComponentKind.worker && worker.kind != ComponentKind.app then
      (s, some (.valueError "Module cannot be removed"))
    else
      let s1 :=
        if worker.kind == ComponentKind.worker then
          let mods := worker.modules.getD []
          let to_be_removed := mods.map (fun m => m.2.module_id)
          { s with components :=
              insertKey name (to_be_removed.foldl Component.remove_module worker) s.components }
        else
          s
      match lookupKey name s1.components with
      | none => (s1, some .keyError)
      | some w2 =>
        ({ s1 with components :=
            eraseKey name (insertKey name w2.remove_handlers s1.components) },
         none)

/-- `EmpowerRuntime.load_pending_tenant`: first pending row with the
given id; querying with `None` matches no row. -/
def load_pending_tenant (st : Store) (tenant_id : Option Nat) :
    Option TblPendingTenant :=
  match tenant_id with
  | none => none
  | some t => st.pending.find? (fun p => p.tenant_id == t)

/-- `EmpowerRuntime.add_tenant`: duplicate check against the LIVE
tenant map only; then a tenant row is built (id taken from the call or
assigned by the store), inserted and committed, an `IntegrityError`
rolling the transaction back and re-raising as ValueError; after the
commit the in-memory tenant is built, resolving the owner through the
in-memory accounts map (`self.accounts[owner]`, a KeyError when the
owner is not registered, raised after the row was committed). -/
def add_tenant (s : RuntimeState) (owner desc tenant_name : String)
    (tenant_id : Option Nat) : RuntimeState × Option PyErr × Option Nat :=
  let live :=
    match tenant_id with
    | some t => (lookupKey t s.tenants).isSome
    | none => false
  if live then
    (s, some (.valueError "Tenant exists"), none)
  else
    let rowAndStore : TblTenant × Store :=
      match tenant_id with
      | some t => (⟨t, tenant_name, owner, desc⟩, s.store)
      | none => (⟨s.store.nextId, tenant_name, owner, desc⟩,
                 { s.store with nextId := s.store.nextId + 1 })
    let row := rowAndStore.1
    let store1 := rowAndStore.2
    if store1.tenants.any (fun x => x.tenant_id == row.tenant_id || x.tenant_name == row.tenant_name) then
      (s, some (.valueError "Tenant name exists"), none)
    else
      let s1 := { s with store := { store1 with tenants := store1.tenants ++ [row] } }
      match lookupKey owner s1.accounts with
      | none => (s1, some .keyError, none)
      | some acct =>
        ({ s1 with tenants :=
            insertKey row.tenant_id ⟨row.tenant_id, row.tenant_name, acct.username, desc⟩ s1.tenants },
         none, some row.tenant_id)

/-- `EmpowerRuntime.request_tenant`: duplicate check against the live
tenant map AND against the pending table, then a pending row is
inserted and committed (rollback and ValueError on IntegrityError); the
request is not mirrored into memory. -/
def request_tenant (s : RuntimeState) (owner desc tenant_name : String)
    (tenant_id : Option Nat) : RuntimeState × Option PyErr × Option Nat :=
  let live :=
    match tenant_id with
    | some t => (lookupKey t s.tenants).isSome
    | none => false
  if live then
    (s, some (.valueError "Tenant exists"), none)
  else if (load_pending_tenant s.store tenant_id).isSome then
    (s, some (.valueError "Tenant exists"), none)
  else
    let rowAndStore : TblPendingTenant × Store :=
      match tenant_id with
      | some t => (⟨t, tenant_name, owner, desc⟩, s.store)
      | none => (⟨s.store.nextId, tenant_name, owner, desc⟩,
                 { s.store with nextId := s.store.nextId + 1 })
    let row := rowAndStore.1
    let store1 := rowAndStore.2
    if store1.pending.any (fun x => x.tenant_id == row.tenant_id || x.tenant_name == row.tenant_name) then
      (s, some (.valueError "Tenant name exists"), none)
    else
      ({ s with store := { store1 with pending := store1.pending ++ [row] } },
       none, some row.tenant_id)

/-! ### Helper lemmas on the dict model -/

theorem lookupKey_insertKey {α β : Type} [BEq α] [LawfulBEq α]
    (k : α) (v : β) (l : List (α × β)) :
    lookupKey k (insertKey k v l) = some v := by
  induction l with
  | nil => simp [insertKey, lookupKey]
  | cons p l ih =>
    by_cases h : (p.1 == k) = true
    · simp [insertKey, lookupKey, h]
    · simp only [Bool.not_eq_true] at h
      simp [insertKey, lookupKey, h, ih]

/-! ### Concrete states used as witnesses -/

/-- A runtime with one registered user account and nothing else. -/
def wOneAccount : RuntimeState :=
  { store := { accounts := [⟨"bob", "pw", "user", "Bob", "", "bob@x"⟩],
               tenants := [], pending := [], nextId := 10 },
    accounts := [("bob", ⟨"bob", "pw", "Bob", "", "bob@x", "user"⟩)],
    tenants := [],
    components := [] }

/-- A runtime whose registry holds one component that is neither a
Worker nor an App. -/
def wPlainComponent : RuntimeState :=
  { store := { accounts := [], tenants := [], pending := [], nextId := 0 },
    accounts := [],
    tenants := [],
    components := [("svc", ⟨ComponentKind.plain, none, false, none, false, false, "svc"⟩)] }

/-! ### C5: root account removal is forbidden -/

/-- C5: for every state of the store and of the in-memory maps,
removing the root account fails with the Forbidden error (the
`ValueError` of core.py line 156) and the whole runtime state, store
included, is returned unchanged. -/
theorem remove_account_root_forbidden (s : RuntimeState) :
    remove_account s "root" = (s, some (.valueError "Cannot removed root account")) := rfl

/-! ### C6: duplicate username on account creation -/

/-- C6: for every username already present in the in-memory accounts
map, `create_account` with that username fails with the DuplicateEntity
error (the already-registered `ValueError`) and returns the state
unchanged: no row is inserted in the store and the existing account is
unmodified. -/
theorem create_account_duplicate (s : RuntimeState)
    (username password role name surname email : String) (a : Account)
    (h : lookupKey username s.accounts = some a) :
    create_account s username password role name surname email =
      (s, some (.valueError (username ++ " already registered"))) := by
  unfold create_account
  simp [h]

/-- Witness for C6 at a concrete state holding the account `bob`. -/
theorem create_account_duplicate_witness :
    create_account wOneAccount "bob" "x" "admin" "B" "" "b@y" =
      (wOneAccount, some (.valueError ("bob" ++ " already registered"))) :=
  create_account_duplicate wOneAccount "bob" "x" "admin" "B" "" "b@y"
    ⟨"bob", "pw", "Bob", "", "bob@x", "user"⟩ rfl

/-! ### C7: component type gate on unregister -/

/-- C7: for every registered component classified neither as a Worker
nor as an App, `unregister` fails with the InvalidComponentType error
(the cannot-be-removed `ValueError`) and returns the state unchanged:
the registry entry, its modules and its handlers are intact and no
teardown hook has run. -/
theorem unregister_invalid_type (s : RuntimeState) (name : String) (comp : Component)
    (hc : lookupKey name s.components = some comp)
    (hk : comp.kind = ComponentKind.plain) :
    unregister s name = (s, some (.valueError "Module cannot be removed")) := by
  simp [unregister, hc, hk]

/-- Witness for C7 at a concrete state holding one plain component. -/
theorem unregister_invalid_type_witness :
    unregister wPlainComponent "svc" =
      (wPlainComponent, some (.valueError "Module cannot be removed")) :=
  unregister_invalid_type wPlainComponent "svc"
    ⟨ComponentKind.plain, none, false, none, false, false, "svc"⟩ rfl rfl

/-! ### C8: bootstrap of the default accounts -/

/-- C8: `generate_default_accounts` run on a store with zero accounts
creates exactly three accounts, one admin and two ordinary users with
the fixed documented credentials; it is idempotent, so a second run
changes nothing; and run on a store already containing any account it
makes no change at all. -/
theorem generate_default_accounts_bootstrap (st : Store) :
    (st.accounts = [] →
      (generate_default_accounts st).accounts.length = 3 ∧
      ((generate_default_accounts st).accounts.filter (fun a => a.role == "admin")).length = 1 ∧
      ((generate_default_accounts st).accounts.filter (fun a => a.role == "user")).length = 2 ∧
      (generate_default_accounts st).accounts = [defaultRootRow, defaultFooRow, defaultBarRow]) ∧
    (st.accounts ≠ [] → generate_default_accounts st = st) ∧
    generate_default_accounts (generate_default_accounts st) = generate_default_accounts st := by
  obtain ⟨accs, tens, pend, k⟩ := st
  cases accs with
  | nil =>
    refine ⟨fun _ => ?_, fun h => absurd rfl h, ?_⟩ <;>
      simp [generate_default_accounts, defaultRootRow, defaultFooRow, defaultBarRow,
        List.filter]
  | cons a l =>
    refine ⟨fun h => absurd h (List.cons_ne_nil a l), fun _ => ?_, ?_⟩ <;>
      simp [generate_default_accounts]

/-- Witness for C8 at an empty store and at a one-account store. -/
theorem generate_default_accounts_bootstrap_witness :
    (generate_default_accounts (⟨[], [], [], 0⟩ : Store)).accounts.length = 3 ∧
    generate_default_accounts wOneAccount.store = wOneAccount.store :=
  ⟨((generate_default_accounts_bootstrap ⟨[], [], [], 0⟩).1 rfl).1,
   (generate_default_accounts_bootstrap wOneAccount.store).2.1 (by decide)⟩

/-! ### C9: add_tenant commits the row before resolving the owner -/

/-- C9: for every owner username not present in the in-memory accounts
map, a fresh explicit tenant id and a fresh tenant name, `add_tenant`
commits the new tenant row to the store and only then raises the
KeyError from resolving the owner in the accounts map: the returned
state has the committed row in the store while the in-memory tenant map
is unchanged, and the stored rows owner is the unregistered username. -/
theorem add_tenant_unknown_owner_commits (s : RuntimeState)
    (owner desc tenant_name : String) (t : Nat)
    (hlive : lookupKey t s.tenants = none)
    (hdup : s.store.tenants.any
      (fun x => x.tenant_id == t || x.tenant_name == tenant_name) = false)
    (howner : lookupKey owner s.accounts = none) :
    add_tenant s owner desc tenant_name (some t) =
      ({ s with store :=
          { s.store with tenants := s.store.tenants ++ [⟨t, tenant_name, owner, desc⟩] } },
       some .keyError, none) := by
  simp [add_tenant, hlive, hdup, howner]

/-- Witness for C9: adding a tenant for the unregistered owner `eve`
in the one-account runtime. -/
theorem add_tenant_unknown_owner_commits_witness :
    add_tenant wOneAccount "eve" "d" "net1" (some 4) =
      ({ wOneAccount with store :=
          { wOneAccount.store with tenants := [⟨4, "net1", "eve", "d"⟩] } },
       some .keyError, none) :=
  add_tenant_unknown_owner_commits wOneAccount "eve" "d" "net1" 4 rfl rfl rfl

/-! ### C10: a start-hook failure leaves the registry entry behind -/

/-- C10: for every `register` call whose constructed instance exposes a
start hook that raises, the exception propagates to the caller but the
component stays in the registry under its name (the entry is inserted
before the start hook runs and is not removed on failure), so any
subsequent `register` with the same name fails with the DuplicateEntity
error. -/
theorem register_start_failure_entry_remains (s : RuntimeState)
    (name : String) (comp : Component) (e : PyErr)
    (habs : lookupKey name s.components = none)
    (hstart : comp.hasStart = true)
    (hexc : comp.startExc = some e) :
    register s name (.ok comp) =
      ({ s with components := insertKey name { comp with path := name } s.components },
       some e) ∧
    ∀ init2 : Except PyErr Component,
      register ({ s with components := insertKey name { comp with path := name } s.components })
          name init2 =
        ({ s with components := insertKey name { comp with path := name } s.components },
         some (.valueError (name ++ " already registered"))) := by
  constructor
  · simp [register, habs, hstart, hexc]
  · intro init2
    simp [register, lookupKey_insertKey]

/-- An empty runtime. -/
def wEmpty : RuntimeState := ⟨⟨[], [], [], 0⟩, [], [], []⟩

/-- An App component whose start hook raises. -/
def failingApp : Component :=
  ⟨ComponentKind.app, none, true, some .integrityError, false, false, ""⟩

/-- The runtime left behind after `register wEmpty "app1" failingApp`. -/
def wAfterFailedStart : RuntimeState :=
  { wEmpty with components := insertKey "app1" { failingApp with path := "app1" } [] }

/-- Witness for C10: registering a failing app twice under the name
`app1` in the empty runtime. -/
theorem register_start_failure_entry_remains_witness :
    register wEmpty "app1" (.ok failingApp) = (wAfterFailedStart, some .integrityError) ∧
    register wAfterFailedStart "app1" (.error .keyError) =
      (wAfterFailedStart, some (.valueError ("app1" ++ " already registered"))) := by
  have h := register_start_failure_entry_remains wEmpty "app1" failingApp
    .integrityError rfl rfl rfl
  exact ⟨h.1, h.2 (.error .keyError)⟩

/-! ### C1: pending tenant ids do not block add_tenant -/

/-- A runtime with one account `alice` and one pending tenant request
with id 7, no live tenants. -/
def wPending : RuntimeState :=
  { store := { accounts := [⟨"alice", "pw", "user", "A", "", "a@x"⟩],
               tenants := [], pending := [⟨7, "t7", "alice", "d"⟩], nextId := 100 },
    accounts := [("alice", ⟨"alice", "pw", "A", "", "a@x", "user"⟩)],
    tenants := [],
    components := [] }

/-- Counterexample to C1: tenant id 7 has a pending request in
`wPending`, yet `add_tenant` with id 7 succeeds (returns no error) and
creates the live tenant, so the duplicate-id check of `add_tenant` does
NOT consult the pending-request set. -/
theorem add_tenant_pending_id_not_rejected :
    (load_pending_tenant wPending.store (some 7)).isSome = true ∧
    (add_tenant wPending "alice" "d2" "net2" (some 7)).2.1 = none ∧
    (lookupKey 7 (add_tenant wPending "alice" "d2" "net2" (some 7)).1.tenants).isSome = true := by
  decide

/-- C1 amended: the duplicate-id check of `add_tenant` consults only
the live tenant map; for every tenantId with a pending request that is
not live (owner registered, id and name fresh in the tenants table),
`add_tenant` succeeds, committing the row and mirroring the tenant into
memory.  Only `request_tenant` checks the pending set. -/
theorem add_tenant_checks_only_live_map (s : RuntimeState)
    (owner desc tenant_name : String) (t : Nat) (acct : Account)
    (_hpend : (load_pending_tenant s.store (some t)).isSome = true)
    (hlive : lookupKey t s.tenants = none)
    (hdup : s.store.tenants.any
      (fun x => x.tenant_id == t || x.tenant_name == tenant_name) = false)
    (howner : lookupKey owner s.accounts = some acct) :
    add_tenant s owner desc tenant_name (some t) =
      ({ s with
          store := { s.store with tenants := s.store.tenants ++ [⟨t, tenant_name, owner, desc⟩] },
          tenants := insertKey t ⟨t, tenant_name, acct.username, desc⟩ s.tenants },
       none, some t) := by
  simp [add_tenant, hlive, hdup, howner]

/-- Witness for the amended C1 at the pending-request state. -/
theorem add_tenant_checks_only_live_map_witness :
    add_tenant wPending "alice" "d2" "net2" (some 7) =
      ({ wPending with
          store := { wPending.store with tenants := [⟨7, "net2", "alice", "d2"⟩] },
          tenants := insertKey 7 ⟨7, "net2", "alice", "d2"⟩ [] },
       none, some 7) :=
  add_tenant_checks_only_live_map wPending "alice" "d2" "net2" 7
    ⟨"alice", "pw", "A", "", "a@x", "user"⟩ rfl rfl rfl rfl

/-! ### C2: store-first ordering and its violation by remove_tenant -/

/-- A runtime whose in-memory map holds tenant 1 while the store does
not (the shape remove_tenant reaches right after its memory deletion
and before its store commit). -/
def wMemOnlyTenant : RuntimeState :=
  ⟨⟨[], [], [], 0⟩, [], [(1, ⟨1, "n", "o", "d"⟩)], []⟩

/-- Counterexample to C2: running `remove_tenant` on `wMemOnlyTenant`
raises without any store commit (the store is returned unchanged), yet
the in-memory tenant map HAS been mutated: the memory deletion of
`remove_tenant` precedes the store commit, so in-memory state can be
ahead of durable state. -/
theorem remove_tenant_memory_ahead :
    (remove_tenant wMemOnlyTenant 1).1.store = wMemOnlyTenant.store ∧
    (remove_tenant wMemOnlyTenant 1).1.tenants ≠ wMemOnlyTenant.tenants ∧
    (remove_tenant wMemOnlyTenant 1).2 = some .unmappedInstanceError := by
  decide

/-- C2 amended: `create_account` mutates nothing when it fails and
`add_tenant` mutates the in-memory tenant map only after a successful
commit, but `remove_tenant` deletes the in-memory entry BEFORE the
store delete and commit: whenever the live tenant has no store row, the
operation raises with the memory entry already gone and the store
untouched. -/
theorem store_first_except_remove_tenant :
    (∀ (s : RuntimeState) (u p r n sn e : String),
      ((create_account s u p r n sn e).2).isSome = true →
        (create_account s u p r n sn e).1 = s) ∧
    (∀ (s : RuntimeState) (o d tn : String) (tid : Option Nat),
      ((add_tenant s o d tn tid).2.1).isSome = true →
        ((add_tenant s o d tn tid).1).tenants = s.tenants) ∧
    (∀ (s : RuntimeState) (tid : Nat),
      (lookupKey tid s.tenants).isSome = true →
      s.store.tenants.find? (fun t => t.tenant_id == tid) = none →
        remove_tenant s tid =
          ({ s with tenants := eraseKey tid s.tenants }, some .unmappedInstanceError)) := by
  refine ⟨?_, ?_, ?_⟩
  · intro s u p r n sn e
    simp only [create_account]
    split
    · intro _; rfl
    · split
      · intro _; rfl
      · intro h; simp at h
  · intro s o d tn tid
    simp only [add_tenant]
    split
    · intro _; rfl
    · split
      · intro _; rfl
      · split
        · intro _; rfl
        · intro h; simp at h
  · intro s tid h1 h2
    obtain ⟨v, hv⟩ := Option.isSome_iff_exists.mp h1
    simp [remove_tenant, hv, h2]

/-- Witness for the amended C2: a failing duplicate `create_account`, a
failing `add_tenant` with an unknown owner, and the memory-first
`remove_tenant` run, each at a concrete state. -/
theorem store_first_except_remove_tenant_witness :
    (create_account wOneAccount "bob" "x" "admin" "B" "" "b@y").1 = wOneAccount ∧
    ((add_tenant wOneAccount "eve" "d" "net1" (some 4)).1).tenants = wOneAccount.tenants ∧
    remove_tenant wMemOnlyTenant 1 =
      ({ wMemOnlyTenant with tenants := eraseKey 1 wMemOnlyTenant.tenants },
       some .unmappedInstanceError) :=
  ⟨store_first_except_remove_tenant.1 wOneAccount "bob" "x" "admin" "B" "" "b@y" rfl,
   store_first_except_remove_tenant.2.1 wOneAccount "eve" "d" "net1" (some 4) rfl,
   store_first_except_remove_tenant.2.2 wMemOnlyTenant 1 rfl rfl⟩

/-! ### C4: the module sweep of remove_tenant -/

theorem eraseKey_of_not_mem {α β : Type} [BEq α] [LawfulBEq α]
    (k : α) (l : List (α × β)) (h : k ∉ l.map Prod.fst) : eraseKey k l = l := by
  induction l with
  | nil => rfl
  | cons p l ih =>
    simp only [List.map_cons, List.mem_cons, not_or] at h
    have hne : (p.1 == k) = false := beq_eq_false_iff_ne.mpr (fun hk => h.1 hk.symm)
    simp [eraseKey, hne, ih h.2]

theorem eraseKey_cons_of_ne {α β : Type} [BEq α] [LawfulBEq α]
    (k a : α) (b : β) (l : List (α × β)) (h : a ≠ k) :
    eraseKey k ((a, b) :: l) = (a, b) :: eraseKey k l := by
  simp [eraseKey, beq_eq_false_iff_ne.mpr h]

theorem foldl_eraseKey_cons {α β : Type} [BEq α] [LawfulBEq α] (k : α) (m : β) :
    ∀ (ids : List α) (l : List (α × β)), (∀ i ∈ ids, i ≠ k) →
      ids.foldl (fun acc mid => eraseKey mid acc) ((k, m) :: l) =
        (k, m) :: ids.foldl (fun acc mid => eraseKey mid acc) l := by
  intro ids
  induction ids with
  | nil => intro l _; rfl
  | cons i rest ih =>
    intro l h
    have hik : k ≠ i := fun hk => h i (List.mem_cons_self i rest) hk.symm
    simp only [List.foldl_cons]
    rw [eraseKey_cons_of_ne i k m l hik]
    exact ih (eraseKey i l) (fun j hj => h j (List.mem_cons_of_mem i hj))

/-- The snapshot-then-remove loop on a well-formed module dict equals a
filter keeping the modules of the other tenants. -/
theorem sweep_ids_eq_filter (tid : Nat) :
    ∀ (mods : List (Nat × Module)),
      (mods.map Prod.fst).Nodup →
      (∀ p ∈ mods, p.2.module_id = p.1) →
      ((mods.filter (fun m => m.2.tenant_id == tid)).map (fun m => m.2.module_id)).foldl
          (fun acc mid => eraseKey mid acc) mods
        = mods.filter (fun m => m.2.tenant_id != tid) := by
  intro mods
  induction mods with
  | nil => intro _ _; rfl
  | cons p rest ih =>
    intro hnd hwf
    obtain ⟨k, m⟩ := p
    simp only [List.map_cons, List.nodup_cons] at hnd
    have hwfh : m.module_id = k := hwf (k, m) (List.mem_cons_self _ _)
    have hwfr : ∀ q ∈ rest, q.2.module_id = q.1 :=
      fun q hq => hwf q (List.mem_cons_of_mem _ hq)
    have hidsne : ∀ i ∈ (rest.filter (fun x => x.2.tenant_id == tid)).map
        (fun x => x.2.module_id), i ≠ k := by
      intro i hi hik
      obtain ⟨q, hq, hqi⟩ := List.mem_map.mp hi
      have hqr : q ∈ rest := List.mem_of_mem_filter hq
      have hkq : k = q.1 := by rw [← hik, ← hqi]; exact hwfr q hqr
      exact hnd.1 (by rw [hkq]; exact List.mem_map_of_mem Prod.fst hqr)
    by_cases hp : (m.tenant_id == tid) = true
    · simp only [List.filter_cons, hp, if_pos]
      simp only [List.map_cons, List.foldl_cons, hwfh]
      have h1 : eraseKey k ((k, m) :: rest) = rest := by
        have : eraseKey k rest = rest := eraseKey_of_not_mem k rest hnd.1
        simp [eraseKey, this]
      rw [h1, ih hnd.2 hwfr]
      have hneg : (m.tenant_id != tid) = false := by
        simp only [bne]; rw [hp]; rfl
      simp [List.filter_cons, hneg]
    · have hpf : (m.tenant_id == tid) = false := Bool.not_eq_true _ ▸ Bool.of_not_eq_true hp
      simp only [List.filter_cons, hpf]
      simp only [Bool.false_eq_true, if_neg, ite_false]
      rw [foldl_eraseKey_cons k m _ rest hidsne, ih hnd.2 hwfr]
      have hneg : (m.tenant_id != tid) = true := by
        simp only [bne]; rw [hpf]; rfl
      simp [List.filter_cons, hneg]

/-- Iterating `remove_module` over a component updates its module dict
by the corresponding list-level fold. -/
theorem foldl_remove_module :
    ∀ (ids : List Nat) (c : Component) (mods : List (Nat × Module)),
      c.modules = some mods →
      ids.foldl Component.remove_module c =
        { c with modules := some (ids.foldl (fun acc mid => eraseKey mid acc) mods) } := by
  intro ids
  induction ids with
  | nil =>
    intro c mods h
    obtain ⟨ck, cm, chs, cse, cst, chr, cp⟩ := c
    simp only [Component.mk.injEq] at h ⊢
    simp_all
  | cons i rest ih =>
    intro c mods h
    have hrm : Component.remove_module c i = { c with modules := some (eraseKey i mods) } := by
      simp [Component.remove_module, h]
    simp only [List.foldl_cons, hrm]
    rw [ih { c with modules := some (eraseKey i mods) } (eraseKey i mods) rfl]

/-- The sweep body of `remove_tenant` on a well-formed worker keeps
exactly the modules of the other tenants. -/
theorem sweepComponent_eq_filter (tid : Nat) (c : Component) (mods : List (Nat × Module))
    (hm : c.modules = some mods)
    (hnd : (mods.map Prod.fst).Nodup)
    (hwf : ∀ p ∈ mods, p.2.module_id = p.1) :
    sweepComponent tid c =
      { c with modules := some (mods.filter (fun m => m.2.tenant_id != tid)) } := by
  simp only [sweepComponent, hm]
  rw [foldl_remove_module _ c mods hm]
  rw [sweep_ids_eq_filter tid mods hnd hwf]

theorem lookupKey_map {α β γ : Type} [BEq α] (g : β → γ) (k : α) (l : List (α × β)) :
    lookupKey k (l.map (fun p => (p.1, g p.2))) = (lookupKey k l).map g := by
  induction l with
  | nil => rfl
  | cons p l ih =>
    by_cases h : (p.1 == k) = true <;> simp [lookupKey, h, ih]

/-- C4: for every live tenant and every registered component exposing a
well-formed modules dict, `remove_tenant` succeeds and removes from
that dict exactly the modules whose `tenant_id` equals the removed
tenant, each through the components own `remove_module` on the
snapshotted ids, leaving the modules of other tenants in place. -/
theorem remove_tenant_sweeps_modules (s : RuntimeState) (tid : Nat) (row : TblTenant)
    (hlive : (lookupKey tid s.tenants).isSome = true)
    (hrow : s.store.tenants.find? (fun t => t.tenant_id == tid) = some row)
    (name : String) (comp : Component) (mods : List (Nat × Module))
    (hc : lookupKey name s.components = some comp)
    (hm : comp.modules = some mods)
    (hnd : (mods.map Prod.fst).Nodup)
    (hwf : ∀ p ∈ mods, p.2.module_id = p.1) :
    (remove_tenant s tid).2 = none ∧
    lookupKey name (remove_tenant s tid).1.components =
      some { comp with modules := some (mods.filter (fun m => m.2.tenant_id != tid)) } := by
  obtain ⟨v, hv⟩ := Option.isSome_iff_exists.mp hlive
  constructor
  · simp [remove_tenant, hv, hrow]
  · simp only [remove_tenant, hv, Option.isNone_some, Bool.false_eq_true, ite_false, hrow]
    simp [lookupKey_map, hc, sweepComponent_eq_filter tid comp mods hm hnd hwf]

/-- A worker component holding module 10 for tenant 1 and module 20
for tenant 2. -/
def workerComp : Component :=
  ⟨ComponentKind.worker, some [(10, ⟨10, 1⟩), (20, ⟨20, 2⟩)], false, none, false, false, "wrk"⟩

/-- A runtime with live tenant 1 (also in the store) and the worker
component `workerComp` registered under `wrk`. -/
def wWorker : RuntimeState :=
  { store := { accounts := [], tenants := [⟨1, "n1", "o", "d"⟩], pending := [], nextId := 5 },
    accounts := [],
    tenants := [(1, ⟨1, "n1", "o", "d"⟩)],
    components := [("wrk", workerComp)] }

/-- Witness for C4 at the worker runtime: removing tenant 1 leaves
exactly module 20 in the workers dict. -/
theorem remove_tenant_sweeps_modules_witness :
    (remove_tenant wWorker 1).2 = none ∧
    lookupKey "wrk" (remove_tenant wWorker 1).1.components =
      some { workerComp with
             modules := some ([(10, ⟨10, 1⟩), (20, ⟨20, 2⟩)].filter (fun m => m.2.tenant_id != 1)) } :=
  remove_tenant_sweeps_modules wWorker 1 ⟨1, "n1", "o", "d"⟩ rfl rfl "wrk"
    workerComp [(10, ⟨10, 1⟩), (20, ⟨20, 2⟩)] rfl rfl (by decide) (by decide)

/-! ### C3: cascade on account removal -/

/-- A consistent runtime in which account `A` owns exactly the tenants
`t1` and `t2` and account `B` owns tenant `t3` (both accounts and all
three tenants mirrored in the store), with arbitrary pending requests
and components. -/
def cascadeState (A B d1 d2 d3 n1 n2 n3 : String) (t1 t2 t3 : Nat)
    (accA accB : Account) (rowA rowB : TblAccount) (P : List TblPendingTenant) (k : Nat)
    (L : List (String × Component)) : RuntimeState :=
  { store := { accounts := [rowA, rowB],
               tenants := [⟨t1, n1, A, d1⟩, ⟨t2, n2, A, d2⟩, ⟨t3, n3, B, d3⟩],
               pending := P, nextId := k },
    accounts := [(A, accA), (B, accB)],
    tenants := [(t1, ⟨t1, n1, A, d1⟩), (t2, ⟨t2, n2, A, d2⟩), (t3, ⟨t3, n3, B, d3⟩)],
    components := L }

/-- C3: removing account `A` from a state in which `A` owns exactly
tenants `t1, t2` and account `B` owns tenant `t3` succeeds, deletes the
persisted row and in-memory entry of `A`, and cascades removal of
exactly `t1` and `t2` from both memory and store, leaving `t3` (and
account `B`) live and unchanged. -/
theorem remove_account_cascade (A B d1 d2 d3 n1 n2 n3 : String) (t1 t2 t3 : Nat)
    (accA accB : Account) (rowA rowB : TblAccount) (P : List TblPendingTenant) (k : Nat)
    (L : List (String × Component))
    (hroot : A ≠ "root") (hAB : B ≠ A)
    (h21 : t2 ≠ t1) (h31 : t3 ≠ t1) (h32 : t3 ≠ t2)
    (hA : rowA.username = A) (hB : rowB.username = B) :
    (remove_account (cascadeState A B d1 d2 d3 n1 n2 n3 t1 t2 t3 accA accB rowA rowB P k L) A).2
      = none ∧
    (remove_account (cascadeState A B d1 d2 d3 n1 n2 n3 t1 t2 t3 accA accB rowA rowB P k L) A).1.accounts
      = [(B, accB)] ∧
    (remove_account (cascadeState A B d1 d2 d3 n1 n2 n3 t1 t2 t3 accA accB rowA rowB P k L) A).1.store.accounts
      = [rowB] ∧
    (remove_account (cascadeState A B d1 d2 d3 n1 n2 n3 t1 t2 t3 accA accB rowA rowB P k L) A).1.tenants
      = [(t3, ⟨t3, n3, B, d3⟩)] ∧
    (remove_account (cascadeState A B d1 d2 d3 n1 n2 n3 t1 t2 t3 accA accB rowA rowB P k L) A).1.store.tenants
      = [⟨t3, n3, B, d3⟩] := by
  have hbroot : (A == "root") = false := beq_eq_false_iff_ne.mpr hroot
  have hbBA : (B == A) = false := beq_eq_false_iff_ne.mpr hAB
  have hb21 : (t2 == t1) = false := beq_eq_false_iff_ne.mpr h21
  have hb31 : (t3 == t1) = false := beq_eq_false_iff_ne.mpr h31
  have hb32 : (t3 == t2) = false := beq_eq_false_iff_ne.mpr h32
  have hn21 : (t2 != t1) = true := by simp [bne, hb21]
  have hn31 : (t3 != t1) = true := by simp [bne, hb31]
  have hn32 : (t3 != t2) = true := by simp [bne, hb32]
  have hnBA : (B != A) = true := by simp [bne, hbBA]
  refine ⟨?_, ?_, ?_, ?_, ?_⟩ <;>
    simp [remove_account, cascadeState, remove_tenant, runList, lookupKey, eraseKey,
      hA, hB, hbroot, hbBA, hb21, hb31, hb32, hn21, hn31, hn32, hnBA,
      List.filter, List.find?]

def accAnn : Account := ⟨"ann", "p", "N", "", "a@x", "user"⟩

def accBen : Account := ⟨"ben", "q", "M", "", "b@x", "user"⟩

def rowAnn : TblAccount := ⟨"ann", "p", "user", "N", "", "a@x"⟩

def rowBen : TblAccount := ⟨"ben", "q", "user", "M", "", "b@x"⟩

/-- A concrete cascade scenario: `ann` owns tenants 1 and 2, `ben` owns
tenant 3. -/
def wCascade : RuntimeState :=
  cascadeState "ann" "ben" "d1" "d2" "d3" "n1" "n2" "n3" 1 2 3
    accAnn accBen rowAnn rowBen [] 0 []

/-- Witness for C3 at the concrete cascade scenario. -/
theorem remove_account_cascade_witness :
    (remove_account wCascade "ann").2 = none ∧
    (remove_account wCascade "ann").1.accounts = [("ben", accBen)] ∧
    (remove_account wCascade "ann").1.store.accounts = [rowBen] ∧
    (remove_account wCascade "ann").1.tenants = [(3, ⟨3, "n3", "ben", "d3"⟩)] ∧
    (remove_account wCascade "ann").1.store.tenants = [⟨3, "n3", "ben", "d3"⟩] :=
  remove_account_cascade "ann" "ben" "d1" "d2" "d3" "n1" "n2" "n3" 1 2 3
    accAnn accBen rowAnn rowBen [] 0 []
    (by decide) (by decide) (by decide) (by decide) (by decide) rfl rfl

end Empower
